import Mathlib

/-
Verification of the chef-mode-extractor recipe extraction service
(src/api/extract_recipe.py and src/run_local.py).

Python strings are modelled as `List Char`.  The two external
collaborators — the recipe-scrapers library and the Gemini completion
endpoint — are modelled as oracle parameters: the scrape call is an
`Except` carrying either the raised exception's message or the scraped
fields, and the Gemini call is a `GeminiOutcome` (a raised fault, or a
reply whose `.text` is `none` or some text).  Everything the repository's
own code does with those results is embedded directly from the source.

JSON values are modelled by the inductive `Json`; `parseJson` models
`json.loads` on the grammar the service exercises (numbers are modelled
for integer literals only: fractional/exponent numerals are treated as
unparseable by this model, and `\uXXXX` escapes outside the BMP are not
paired).  A parsed object is an association list in source order; when a
dict is built from it (`coerceKeys`), later duplicate keys overwrite the
value at the first occurrence's position, matching Python dict semantics.
-/

namespace ChefMode

/-- Python `str` modelled as a list of characters. -/
abbrev PyStr := List Char

/-- The backtick character (code 96). -/
def backtickC : Char := Char.ofNat 96

/-- The opening curly brace character (code 123). -/
def lbraceC : Char := Char.ofNat 123

/-- The closing curly brace character (code 125). -/
def rbraceC : Char := Char.ofNat 125

/-- The double quote character (code 34). -/
def dquoteC : Char := Char.ofNat 34

/-- The backslash character (code 92). -/
def bslashC : Char := Char.ofNat 92

/-- The characters stripped by Python `str.strip()` (ASCII whitespace). -/
def pyIsSpace (c : Char) : Bool :=
  c == ' ' || c == '\t' || c == '\n' || c == '\r' || c == Char.ofNat 11 || c == Char.ofNat 12

/-- Python `str.lstrip()`. -/
def lstrip (s : PyStr) : PyStr := List.dropWhile pyIsSpace s

/-- Python `str.strip()`: lstrip, then strip the (reversed) tail. -/
def pyStrip (s : PyStr) : PyStr := ((lstrip ((lstrip s).reverse)).reverse)

/-- Python truthiness of an optional string (`None` and `""` are falsy). -/
def pyFalsy : Option PyStr → Bool
  | none => true
  | some s => s.isEmpty

/-- JSON values as produced by `json.loads`.  Objects are association
lists of raw keys in source order. -/
inductive Json where
  | null : Json
  | bool : Bool → Json
  | num : Int → Json
  | str : PyStr → Json
  | arr : List Json → Json
  | obj : List (PyStr × Json) → Json

/-- JSON insignificant whitespace. -/
def jsonWs (c : Char) : Bool :=
  c == ' ' || c == '\t' || c == '\n' || c == '\r'

/-- Skip JSON whitespace. -/
def skipWs (s : PyStr) : PyStr := List.dropWhile jsonWs s

/-- Value of one hexadecimal digit. -/
def hexVal (c : Char) : Option Nat :=
  let n := c.toNat
  if 48 ≤ n ∧ n ≤ 57 then some (n - 48)
  else if 97 ≤ n ∧ n ≤ 102 then some (n - 87)
  else if 65 ≤ n ∧ n ≤ 70 then some (n - 55)
  else none

/-- Digits to a natural number (most significant first). -/
def digitsToNat (ds : PyStr) : Nat :=
  ds.foldl (fun a c => a * 10 + (c.toNat - 48)) 0

/-- Parse the body of a JSON string literal (after the opening quote),
returning the decoded characters and the remaining input. -/
def parseStringAux : PyStr → Option (PyStr × PyStr)
  | [] => none
  | c :: rest =>
    if c = dquoteC then some ([], rest)
    else if c = bslashC then
      match rest with
      | [] => none
      | e :: r2 =>
        if e = dquoteC then (parseStringAux r2).map (fun p => (dquoteC :: p.1, p.2))
        else if e = bslashC then (parseStringAux r2).map (fun p => (bslashC :: p.1, p.2))
        else if e = '/' then (parseStringAux r2).map (fun p => ('/' :: p.1, p.2))
        else if e = 'n' then (parseStringAux r2).map (fun p => ('\n' :: p.1, p.2))
        else if e = 't' then (parseStringAux r2).map (fun p => ('\t' :: p.1, p.2))
        else if e = 'r' then (parseStringAux r2).map (fun p => ('\r' :: p.1, p.2))
        else if e = 'b' then (parseStringAux r2).map (fun p => (Char.ofNat 8 :: p.1, p.2))
        else if e = 'f' then (parseStringAux r2).map (fun p => (Char.ofNat 12 :: p.1, p.2))
        else if e = 'u' then
          match r2 with
          | h1 :: h2 :: h3 :: h4 :: r3 =>
            match hexVal h1, hexVal h2, hexVal h3, hexVal h4 with
            | some a, some b, some c2, some d =>
              (parseStringAux r3).map
                (fun p => (Char.ofNat (((a * 16 + b) * 16 + c2) * 16 + d) :: p.1, p.2))
            | _, _, _, _ => none
          | _ => none
        else none
    else if c.toNat < 32 then none
    else (parseStringAux rest).map (fun p => (c :: p.1, p.2))

/-- Parse a JSON number.  This model covers integer literals only:
fractional or exponent forms are treated as unparseable. -/
def parseNumber (cs : PyStr) : Option (Json × PyStr) :=
  let signed := match cs with
    | c :: r => if c = '-' then (true, r) else (false, cs)
    | [] => (false, cs)
  match signed.2 with
  | [] => none
  | c :: _ =>
    if c.isDigit then
      let ds := signed.2.takeWhile Char.isDigit
      let rest := signed.2.dropWhile Char.isDigit
      if 1 < ds.length ∧ ds.headD ' ' = '0' then none
      else
        match rest with
        | '.' :: _ => none
        | 'e' :: _ => none
        | 'E' :: _ => none
        | _ =>
          let n : Int := Int.ofNat (digitsToNat ds)
          some (.num (if signed.1 then -n else n), rest)
    else none

/-- Parsing modes for the fuelled JSON parser: a single value, the items
of an array (after the opening bracket), or the members of an object
(after the opening brace). -/
inductive PMode where
  | val : PMode
  | items : PMode
  | mems : PMode

/-- Result of one fuelled parsing step. -/
inductive PRes where
  | v : Json → PRes
  | items : List Json → PRes
  | mems : List (PyStr × Json) → PRes

/-- Fuelled recursive-descent JSON parser (the fuel strictly decreases at
every recursive call, so the recursion is structural). -/
def parseCore : Nat → PMode → PyStr → Option (PRes × PyStr)
  | 0, _, _ => none
  | Nat.succ f, PMode.val, input =>
    match skipWs input with
    | [] => none
    | c :: rest =>
      if c = lbraceC then
        match skipWs rest with
        | [] => none
        | c2 :: r2 =>
          if c2 = rbraceC then some (.v (.obj []), r2)
          else
            match parseCore f PMode.mems (c2 :: r2) with
            | some (PRes.mems kvs, r3) => some (.v (.obj kvs), r3)
            | _ => none
      else if c = '[' then
        match skipWs rest with
        | ']' :: r2 => some (.v (.arr []), r2)
        | r =>
          match parseCore f PMode.items r with
          | some (PRes.items js, r3) => some (.v (.arr js), r3)
          | _ => none
      else if c = dquoteC then
        match parseStringAux rest with
        | some (s, r) => some (.v (.str s), r)
        | none => none
      else
        match c :: rest with
        | 'n' :: 'u' :: 'l' :: 'l' :: r => some (.v .null, r)
        | 't' :: 'r' :: 'u' :: 'e' :: r => some (.v (.bool true), r)
        | 'f' :: 'a' :: 'l' :: 's' :: 'e' :: r => some (.v (.bool false), r)
        | cs =>
          match parseNumber cs with
          | some (j, r) => some (.v j, r)
          | none => none
  | Nat.succ f, PMode.items, cs =>
    match parseCore f PMode.val cs with
    | some (PRes.v j, r) =>
      (match skipWs r with
      | ',' :: r3 =>
        (match parseCore f PMode.items r3 with
        | some (PRes.items js, r4) => some (.items (j :: js), r4)
        | _ => none)
      | ']' :: r3 => some (.items [j], r3)
      | _ => none)
    | _ => none
  | Nat.succ f, PMode.mems, cs =>
    match skipWs cs with
    | c :: r =>
      if c = dquoteC then
        match parseStringAux r with
        | some (k, r2) =>
          (match skipWs r2 with
          | ':' :: r3 =>
            (match parseCore f PMode.val r3 with
            | some (PRes.v v, r4) =>
              (match skipWs r4 with
              | ',' :: r5 =>
                (match parseCore f PMode.mems r5 with
                | some (PRes.mems kvs, r6) => some (.mems ((k, v) :: kvs), r6)
                | _ => none)
              | c2 :: r5 =>
                if c2 = rbraceC then some (.mems [(k, v)], r5) else none
              | [] => none)
            | _ => none)
          | _ => none)
        | none => none
      else none
    | [] => none

/-- Model of json.loads: parse one JSON document with nothing but whitespace
after it. -/
def parseJson (cs : PyStr) : Option Json :=
  match parseCore (2 * cs.length + 2) PMode.val cs with
  | some (PRes.v j, r) => if skipWs r = [] then some j else none
  | _ => none

/-- The leading Markdown fence the code tests for: the literal
characters of the Python string given to `startswith`. -/
def fenceJson : PyStr := [backtickC, backtickC, backtickC, 'j', 's', 'o', 'n']

/-- The trailing fence the code tests for with `endswith`. -/
def fenceTicks : PyStr := [backtickC, backtickC, backtickC]

/-- Lines 90-91 of src/api/extract_recipe.py:
`if cleaned_text.startswith('```json'): cleaned_text = cleaned_text[7:]`. -/
def dropLeadJson (c1 : PyStr) : PyStr :=
  if c1.take 7 = fenceJson then c1.drop 7 else c1

/-- Lines 92-93 of src/api/extract_recipe.py:
`if cleaned_text.endswith('```'): cleaned_text = cleaned_text[:-3]`. -/
def dropTrailTicks (c2 : PyStr) : PyStr :=
  if c2.drop (c2.length - 3) = fenceTicks then c2.take (c2.length - 3) else c2

/-- Lines 89-94 of src/api/extract_recipe.py: strip the reply, drop a
leading fence exactly when the text starts with the 7 characters of
three backticks followed by `json`, drop a trailing three-backtick
fence, and strip again. -/
def stripFences (t : PyStr) : PyStr :=
  pyStrip (dropTrailTicks (dropLeadJson (pyStrip t)))

/-- Digit run of Python `int(str)` with single underscores allowed
between digits. -/
def pyIntGo (acc : Nat) : PyStr → Option Nat
  | [] => some acc
  | '_' :: d :: rest =>
    if d.isDigit then pyIntGo (acc * 10 + (d.toNat - 48)) rest else none
  | ['_'] => none
  | c :: rest =>
    if c.isDigit then pyIntGo (acc * 10 + (c.toNat - 48)) rest else none

/-- Unsigned part of Python `int(str)`: must start with a digit. -/
def pyIntCore : PyStr → Option Nat
  | [] => none
  | c :: rest => if c.isDigit then pyIntGo (c.toNat - 48) rest else none

/-- Python `int(str)`: surrounding whitespace stripped, an optional sign,
then digits (with underscores between digits); anything else raises
`ValueError`, modelled as `none`. -/
def pyInt (s : PyStr) : Option Int :=
  match pyStrip s with
  | '+' :: r => (pyIntCore r).map (fun n => Int.ofNat n)
  | '-' :: r => (pyIntCore r).map (fun n => -(Int.ofNat n))
  | t => (pyIntCore t).map (fun n => Int.ofNat n)

/-- Insert into a Python dict modelled as an association list: an
existing key keeps its position and gets the new value, a new key is
appended. -/
def dictInsert (m : List (Int × Json)) (k : Int) (v : Json) : List (Int × Json) :=
  match m with
  | [] => [(k, v)]
  | (k', v') :: rest =>
    if k' = k then (k', v) :: rest else (k', v') :: dictInsert rest k v

/-- Line 100 of src/api/extract_recipe.py: the dict comprehension
`(int(k), v) for k, v in items` — the first key `int` cannot parse
raises `ValueError`, discarding the entire mapping. -/
def coerceKeys : List (PyStr × Json) → List (Int × Json) → Option (List (Int × Json))
  | [], acc => some acc
  | (k, v) :: rest, acc =>
    match pyInt k with
    | none => none
    | some i => coerceKeys rest (dictInsert acc i v)

/-- Outcome of the external Gemini completion call: either the call (or
reading the response) raised, or it returned a response whose `.text` is
`None` or some text. -/
inductive GeminiOutcome where
  | fault : PyStr → GeminiOutcome
  | reply : Option PyStr → GeminiOutcome

/-- Lines 88-110 of src/api/extract_recipe.py: clean the reply text,
`json.loads` it, coerce the keys.  `json.JSONDecodeError`, a non-dict
document (`.items()` raising), and a bad key (`int(k)` raising) are all
caught and yield the empty mapping. -/
def geminiParse (t : PyStr) : List (Int × Json) :=
  match parseJson (stripFences t) with
  | some (Json.obj kvs) =>
    (match coerceKeys kvs [] with
    | some m => m
    | none => [])
  | _ => []

/-- src/api/extract_recipe.py lines 35-110,
`call_gemini_for_step_ingredients`: short-circuit to the empty mapping
when `GEMINI_API_KEY` is falsy; any fault in the call, a `None` reply
text, or an unparseable reply also yields the empty mapping.  (The
prompt built from `recipe_data` does not influence which branch the
embedded function takes, so the oracle outcome stands in for the remote
call.) -/
def call_gemini_for_step_ingredients (geminiKey : Option PyStr) (out : GeminiOutcome) :
    List (Int × Json) :=
  if pyFalsy geminiKey then []
  else
    match out with
    | .fault _ => []
    | .reply none => []
    | .reply (some t) => geminiParse t

/-- One parsed ingredient line (src/api/extract_recipe.py lines 137-144). -/
structure Ingredient where
  quantity : Option PyStr
  item : PyStr
  deriving DecidableEq

/-- The position of the first space character: Python
`s.split(' ', 1)` yields two parts exactly when the line contains a
space, the part before the first space and everything after it. -/
def splitFirstSpace : PyStr → Option (PyStr × PyStr)
  | [] => none
  | c :: t =>
    if c = ' ' then some ([], t)
    else
      match splitFirstSpace t with
      | none => none
      | some (q, r) => some (c :: q, r)

/-- Lines 138-143 of src/api/extract_recipe.py: `parts = ing_str.split(' ', 1)`;
two parts give `quantity = parts[0], item = parts[1]`, otherwise
`quantity = None, item = ing_str`. -/
def parseIngredient (s : PyStr) : Ingredient :=
  match splitFirstSpace s with
  | some (q, r) => ⟨some q, r⟩
  | none => ⟨none, s⟩

/-- The scraper-object fields `extract_recipe_full` reads, as returned by
the external recipe-scrapers collaborator on success. -/
structure ScrapeResult where
  title : PyStr
  image : Option PyStr
  total_time : Option Int
  yields : PyStr
  ingredients : List PyStr
  instructions_list : List PyStr

/-- Line 150: `scraper.image() if scraper.image() else None` — an empty
or missing image string becomes `None`. -/
def pyImage : Option PyStr → Option PyStr
  | none => none
  | some s => if s.isEmpty then none else some s

/-- Line 151: `scraper.total_time() or 0` — a falsy value (None or 0)
becomes 0. -/
def pyOrZero : Option Int → Int
  | none => 0
  | some t => t

/-- The normalized recipe dictionary built by `extract_recipe_full`
(lines 148-165): prep.ingredients and cook.steps nested, plus the merged
step_ingredients map. -/
structure RecipeData where
  title : PyStr
  image : Option PyStr
  totalTime : Int
  yields : PyStr
  sourceUrl : PyStr
  ingredients : List Ingredient
  steps : List PyStr
  step_ingredients : List (Int × Json)

/-- The discriminated result of `extract_recipe_full`:
`(success true, data)` or `(success false, error)`. -/
inductive ApiResponse where
  | ok : RecipeData → ApiResponse
  | err : PyStr → ApiResponse

/-- The data branch of a response, when present. -/
def getData : ApiResponse → Option RecipeData
  | .ok d => some d
  | .err _ => none

/-- The value of result["success"] as a Bool. -/
def isOk : ApiResponse → Bool
  | .ok _ => true
  | .err _ => false

/-- src/api/extract_recipe.py lines 115-172, `extract_recipe_full`: any
fault raised by the scraping collaborator is caught and becomes the
failure branch with the original message; on success the fields are
mapped, ingredient lines are split, and the Gemini map is merged. -/
def extract_recipe_full (url : PyStr) (scrape : Except PyStr ScrapeResult)
    (geminiKey : Option PyStr) (gout : GeminiOutcome) : ApiResponse :=
  match scrape with
  | .error e => .err e
  | .ok s =>
    .ok
      { title := s.title
        image := pyImage s.image
        totalTime := pyOrZero s.total_time
        yields := s.yields
        sourceUrl := url
        ingredients := s.ingredients.map parseIngredient
        steps := s.instructions_list
        step_ingredients := call_gemini_for_step_ingredients geminiKey gout }

/-- Python `str(int)`: decimal digits with a leading minus for
negatives. -/
def intToChars (i : Int) : PyStr :=
  if i < 0 then '-' :: Nat.toDigits 10 (-i).toNat else Nat.toDigits 10 i.toNat

/-- Serialization by json.dumps of the step-ingredients dict: integer keys serialize as
decimal strings. -/
def stepMapToJson (m : List (Int × Json)) : Json :=
  .obj (m.map (fun p => (intToChars p.1, p.2)))

/-- Serialize one parsed ingredient as in the `data` dict. -/
def ingredientToJson (i : Ingredient) : Json :=
  .obj
    [("quantity".toList, match i.quantity with | none => .null | some q => .str q),
     ("item".toList, .str i.item)]

/-- The JSON document `json.dumps` produces for the `data` dict of
`extract_recipe_full` (lines 148-165), in insertion order. -/
def recipeDataToJson (d : RecipeData) : Json :=
  .obj
    [("title".toList, .str d.title),
     ("image".toList, match d.image with | none => .null | some s => .str s),
     ("totalTime".toList, .num d.totalTime),
     ("yields".toList, .str d.yields),
     ("sourceUrl".toList, .str d.sourceUrl),
     ("prep".toList, .obj [("ingredients".toList, .arr (d.ingredients.map ingredientToJson))]),
     ("cook".toList, .obj [("steps".toList, .arr (d.steps.map Json.str))]),
     ("step_ingredients".toList, stepMapToJson d.step_ingredients)]

/-- The JSON document printed for an `ApiResponse`. -/
def apiRespToJson : ApiResponse → Json
  | .ok d => .obj [("success".toList, .bool true), ("data".toList, recipeDataToJson d)]
  | .err m => .obj [("success".toList, .bool false), ("error".toList, .str m)]

/-- src/api/extract_recipe.py lines 175-185, command-line mode: with at
least one argument after the script name the first one is the URL,
extraction runs once, the JSON result is printed and the exit code is
`0 if result["success"] else 1`; with no argument nothing is printed and
the exit code is 1.  The returned pair is (printed JSON document, exit
code). -/
def mainCLI (argv : List PyStr) (scrape : Except PyStr ScrapeResult)
    (geminiKey : Option PyStr) (gout : GeminiOutcome) : Option Json × Nat :=
  match argv with
  | _ :: url :: _ =>
    let result := extract_recipe_full url scrape geminiKey gout
    (some (apiRespToJson result), if isOk result then 0 else 1)
  | _ => (none, 1)

/-- The scraper fields `handler.do_GET` collects into `scraped_data`
(lines 217-241), in insertion order; each value is whatever JSON-
serializable value the collaborator returned. -/
structure DoGetScraped where
  title : Json
  total_time : Json
  yields : Json
  ingredients : Json
  instructions : Json
  image : Json
  host : Json
  canonical_url : Json
  nutrients : Json
  ratings : Json
  reviews : Json
  author : Json
  cuisine : Json
  category : Json
  cook_time : Json
  prep_time : Json
  description : Json
  keywords : Json
  language : Json
  equipment : Json
  ingredient_groups : Json
  instructions_list : Json
  suitable_for_diet : Json

/-- The `scraped_data` dict as a JSON object, in the insertion order of
lines 218-240. -/
def scrapedToJson (s : DoGetScraped) : Json :=
  .obj
    [("title".toList, s.title),
     ("total_time".toList, s.total_time),
     ("yields".toList, s.yields),
     ("ingredients".toList, s.ingredients),
     ("instructions".toList, s.instructions),
     ("image".toList, s.image),
     ("host".toList, s.host),
     ("canonical_url".toList, s.canonical_url),
     ("nutrients".toList, s.nutrients),
     ("ratings".toList, s.ratings),
     ("reviews".toList, s.reviews),
     ("author".toList, s.author),
     ("cuisine".toList, s.cuisine),
     ("category".toList, s.category),
     ("cook_time".toList, s.cook_time),
     ("prep_time".toList, s.prep_time),
     ("description".toList, s.description),
     ("keywords".toList, s.keywords),
     ("language".toList, s.language),
     ("equipment".toList, s.equipment),
     ("ingredient_groups".toList, s.ingredient_groups),
     ("instructions_list".toList, s.instructions_list),
     ("suitable_for_diet".toList, s.suitable_for_diet)]

/-- The inbound HTTP request as `do_GET` observes it: the first value of
the `url` query parameter (absent or kept non-blank by `parse_qs`), and
the `x-api-key` header if the caller sent one. -/
structure Request where
  urlParam : Option PyStr
  xApiKey : Option PyStr

/-- What `do_GET` sends on the wire.  `badRequest` is `send_error(400, ...)`.
`ok` is a 200 status with the JSON body.  `uncaughtCrash` models the
failure path of lines 245-287: after a scrape fault, `scraped_data`
(and then `step_ingredients` and `result`) are unbound locals, each
stage's `except` block swallows the resulting `NameError` until
`json.dumps(result)` on line 287 raises it uncaught — after
`send_response(200)` has already emitted the 200 status line, so no body
is written. -/
inductive DoGetResult where
  | badRequest : PyStr → DoGetResult
  | ok : Json → DoGetResult
  | uncaughtCrash : DoGetResult

/-- The HTTP status line `do_GET` emits for each outcome (the crash
happens after the 200 status line is sent). -/
def statusSent : DoGetResult → Nat
  | .badRequest _ => 400
  | .ok _ => 200
  | .uncaughtCrash => 200

/-- The body of a 200 response, when one was written. -/
def getBody : DoGetResult → Option Json
  | .ok b => some b
  | _ => none

/-- Top-level keys of a JSON object. -/
def topKeys : Json → List PyStr
  | .obj kvs => kvs.map (fun p => p.1)
  | _ => []

/-- Association-list lookup used by `jlookup`. -/
def lookupKey : List (PyStr × Json) → PyStr → Option Json
  | [], _ => none
  | (k, v) :: rest, key => if k = key then some v else lookupKey rest key

/-- Look up a top-level field of a JSON object. -/
def jlookup (j : Json) (key : PyStr) : Option Json :=
  match j with
  | .obj kvs => lookupKey kvs key
  | _ => none

/-- The outcome of one `do_GET` call plus whether the scraping stage was
ever invoked (`scrape_me` called). -/
structure DoGetOut where
  result : DoGetResult
  scrapeInvoked : Bool

/-- The 400 message of lines 197/213 (the quotes around url are elided in
this model). -/
def badUrlMsg : PyStr := "Missing url query parameter".toList

/-- src/api/extract_recipe.py lines 190-287, `handler.do_GET`: a missing
or blank `url` parameter short-circuits to a 400; otherwise the scraper
is invoked (the `x-api-key` header is never read), a scrape fault ends
in the uncaught-crash path, and on success the Gemini stage runs and the
body is the object with the `recipe` and `step_ingredients` fields of
line 273. -/
def do_GET (req : Request) (scrape : Except PyStr DoGetScraped)
    (geminiKey : Option PyStr) (gout : GeminiOutcome) : DoGetOut :=
  match req.urlParam with
  | none => ⟨.badRequest badUrlMsg, false⟩
  | some u =>
    if u.isEmpty then ⟨.badRequest badUrlMsg, false⟩
    else
      match scrape with
      | .error _ => ⟨.uncaughtCrash, true⟩
      | .ok sd =>
        let step_ingredients := call_gemini_for_step_ingredients geminiKey gout
        ⟨.ok (.obj
          [("recipe".toList, scrapedToJson sd),
           ("step_ingredients".toList, stepMapToJson step_ingredients)]), true⟩

/-- A sample target URL for concrete evaluations. -/
def sampleUrl : PyStr := "https://example.com/recipe".toList

/-- A sample collaborator result for `do_GET` (each field is whatever the
scraper returned; nulls suffice for the claims about response shape). -/
def sampleScraped : DoGetScraped :=
  ⟨.str "Pancakes".toList, .num 30, .null, .null, .null, .null, .null, .null, .null, .null,
   .null, .null, .null, .null, .null, .null, .null, .null, .null, .null, .null, .null, .null⟩

/-- A sample collaborator result for `extract_recipe_full`. -/
def sampleScrape2 : ScrapeResult :=
  ⟨"Pancakes".toList, none, some 30, "4 servings".toList,
   ["2 cups flour".toList, "salt".toList], ["mix".toList, "bake".toList]⟩

/-- A collaborator result with a single instruction, used to exhibit an
out-of-range step key. -/
def c8scrape : ScrapeResult :=
  ⟨"T".toList, none, some 30, "4 servings".toList,
   ["2 cups flour".toList, "salt".toList], ["mix".toList]⟩

/-- A scrape-fault message. -/
def c2msg : PyStr := "Connection error".toList

/-- A model reply whose second key is not an integer-like string. -/
def c6badReply : PyStr := "\x7b\"0\": [\"a\"], \"x\": [\"b\"]\x7d".toList

/-- The untagged-fence variant of the spec's fenced example. -/
def c5fencedUntagged : PyStr := "```\n\x7b\"0\":[]\x7d\n```".toList

/-- The spec's unfenced example text. -/
def c5plain : PyStr := "\x7b\"0\":[]\x7d".toList

/- ------------------------------------------------------------------ -/
/- Helper lemmas -/
/- ------------------------------------------------------------------ -/

theorem lstrip_cons_false (c : Char) (l : PyStr) (h : pyIsSpace c = false) :
    lstrip (c :: l) = c :: l := by
  simp [lstrip, List.dropWhile_cons, h]

theorem lstrip_cons_true (c : Char) (l : PyStr) (h : pyIsSpace c = true) :
    lstrip (c :: l) = lstrip l := by
  simp [lstrip, List.dropWhile_cons, h]

theorem pyStrip_firm (a b : Char) (mid : PyStr) (ha : pyIsSpace a = false)
    (hb : pyIsSpace b = false) : pyStrip (a :: mid ++ [b]) = a :: mid ++ [b] := by
  show pyStrip (a :: (mid ++ [b])) = a :: (mid ++ [b])
  unfold pyStrip
  rw [lstrip_cons_false a (mid ++ [b]) ha]
  have h1 : (a :: (mid ++ [b])).reverse = b :: (mid.reverse ++ [a]) := by simp
  rw [h1, lstrip_cons_false b (mid.reverse ++ [a]) hb]
  simp

theorem pyStrip_pad (a b : Char) (mid : PyStr) (ha : pyIsSpace a = false)
    (hb : pyIsSpace b = false) :
    pyStrip ('\n' :: (a :: mid ++ [b]) ++ ['\n']) = a :: mid ++ [b] := by
  show pyStrip ('\n' :: (a :: (mid ++ [b] ++ ['\n']))) = a :: (mid ++ [b])
  unfold pyStrip
  rw [lstrip_cons_true '\n' _ (by decide), lstrip_cons_false a _ ha]
  have h1 : (a :: (mid ++ [b] ++ ['\n'])).reverse = '\n' :: (b :: (mid.reverse ++ [a])) := by
    simp
  rw [h1, lstrip_cons_true '\n' _ (by decide), lstrip_cons_false b _ hb]
  simp

theorem dropLeadJson_fence (r : PyStr) : dropLeadJson (fenceJson ++ r) = r := by
  have h1 : (fenceJson ++ r).take 7 = fenceJson := rfl
  have h2 : (fenceJson ++ r).drop 7 = r := rfl
  simp [dropLeadJson, h1, h2]

theorem dropLeadJson_skip (c1 : PyStr) (h : c1.take 7 ≠ fenceJson) :
    dropLeadJson c1 = c1 := by
  simp [dropLeadJson, h]

theorem dropTrailTicks_ticks (A : PyStr) : dropTrailTicks (A ++ fenceTicks) = A := by
  have hlen : (A ++ fenceTicks).length - 3 = A.length := by simp [fenceTicks]
  have h1 : (A ++ fenceTicks).drop A.length = fenceTicks := List.drop_left A fenceTicks
  have h2 : (A ++ fenceTicks).take A.length = A := List.take_left A fenceTicks
  unfold dropTrailTicks
  rw [hlen, h1, if_pos rfl, h2]

theorem dropTrailTicks_skip (c2 : PyStr) (h : c2.drop (c2.length - 3) ≠ fenceTicks) :
    dropTrailTicks c2 = c2 := by
  simp [dropTrailTicks, h]

theorem stripFences_fenced (a b : Char) (mid : PyStr) (ha : pyIsSpace a = false)
    (hb : pyIsSpace b = false) :
    stripFences (fenceJson ++ '\n' :: (a :: mid ++ [b]) ++ '\n' :: fenceTicks)
      = a :: mid ++ [b] := by
  have hshape : fenceJson ++ '\n' :: (a :: mid ++ [b]) ++ '\n' :: fenceTicks
      = backtickC :: ((backtickC :: backtickC :: 'j' :: 's' :: 'o' :: 'n' :: '\n' ::
          (a :: mid ++ [b])) ++ ['\n', backtickC, backtickC]) ++ [backtickC] := by
    simp [fenceJson, fenceTicks]
  have hstrip : pyStrip (fenceJson ++ '\n' :: (a :: mid ++ [b]) ++ '\n' :: fenceTicks)
      = fenceJson ++ '\n' :: (a :: mid ++ [b]) ++ '\n' :: fenceTicks := by
    rw [hshape]
    exact pyStrip_firm backtickC backtickC _ (by decide) (by decide)
  have hassoc : fenceJson ++ '\n' :: (a :: mid ++ [b]) ++ '\n' :: fenceTicks
      = fenceJson ++ (('\n' :: (a :: mid ++ [b])) ++ ('\n' :: fenceTicks)) := by
    simp
  have hsplit : ('\n' :: (a :: mid ++ [b])) ++ ('\n' :: fenceTicks)
      = ('\n' :: (a :: mid ++ [b]) ++ ['\n']) ++ fenceTicks := by
    simp [fenceTicks]
  unfold stripFences
  rw [hstrip, hassoc, dropLeadJson_fence, hsplit, dropTrailTicks_ticks]
  exact pyStrip_pad a b mid ha hb

theorem stripFences_plain (a b : Char) (mid : PyStr) (ha : pyIsSpace a = false)
    (hb : pyIsSpace b = false) (h3 : (a :: mid ++ [b]).take 7 ≠ fenceJson)
    (h4 : (a :: mid ++ [b]).drop ((a :: mid ++ [b]).length - 3) ≠ fenceTicks) :
    stripFences (a :: mid ++ [b]) = a :: mid ++ [b] := by
  unfold stripFences
  rw [pyStrip_firm a b mid ha hb, dropLeadJson_skip _ h3, dropTrailTicks_skip _ h4]
  exact pyStrip_firm a b mid ha hb

theorem splitFirstSpace_spec (s : PyStr) :
    (' ' ∈ s →
      splitFirstSpace s
        = some (s.takeWhile (fun c => c != ' '), (s.dropWhile (fun c => c != ' ')).tail))
    ∧ (' ' ∉ s → splitFirstSpace s = none) := by
  induction s with
  | nil =>
    exact ⟨fun h => absurd h (List.not_mem_nil ' '), fun _ => rfl⟩
  | cons c t ih =>
    by_cases hc : c = ' '
    · subst hc
      refine ⟨fun _ => ?_, fun h => absurd (List.mem_cons_self ' ' t) h⟩
      simp [splitFirstSpace, List.takeWhile_cons, List.dropWhile_cons]
    · have hcb : (c != ' ') = true := by simp [hc]
      constructor
      · intro h
        have hmem : ' ' ∈ t := by
          rcases List.mem_cons.mp h with h1 | h2
          · exact absurd h1.symm hc
          · exact h2
        simp [splitFirstSpace, hc, ih.1 hmem, List.takeWhile_cons, List.dropWhile_cons, hcb]
      · intro h
        have hmem : ' ' ∉ t := fun hm => h (List.mem_cons_of_mem _ hm)
        simp [splitFirstSpace, hc, ih.2 hmem]

theorem coerceKeys_badkey (kvs : List (PyStr × Json)) :
    ∀ (acc : List (Int × Json)) (k : PyStr) (v : Json),
      (k, v) ∈ kvs → pyInt k = none → coerceKeys kvs acc = none := by
  induction kvs with
  | nil => intro acc k v h; exact absurd h (List.not_mem_nil _)
  | cons p rest ih =>
    intro acc k v h hk
    obtain ⟨k0, v0⟩ := p
    rcases List.mem_cons.mp h with h1 | h2
    · injection h1 with hk1 hv1
      subst hk1
      simp [coerceKeys, hk]
    · cases hpk : pyInt k0 with
      | none => simp [coerceKeys, hpk]
      | some i =>
        simp only [coerceKeys, hpk]
        exact ih _ k v h2 hk

/- ------------------------------------------------------------------ -/
/- Claim theorems -/
/- ------------------------------------------------------------------ -/

/-- C1: the claim says a missing or wrong `x-api-key` makes the handler
respond 401 without invoking extraction.  The handler never reads the
header: its behavior is identical for every `x-api-key` value, and at
the failing input (url present, no key sent) it invokes the scraper and
sends a 200 status — never a 401. -/
theorem c1_api_key_ignored :
    (∀ (u : Option PyStr) (k1 k2 : Option PyStr) (s : Except PyStr DoGetScraped)
        (g : Option PyStr) (o : GeminiOutcome),
      do_GET ⟨u, k1⟩ s g o = do_GET ⟨u, k2⟩ s g o)
    ∧ (do_GET ⟨some sampleUrl, none⟩ (.ok sampleScraped) none (.reply none)).scrapeInvoked
        = true
    ∧ statusSent (do_GET ⟨some sampleUrl, none⟩ (.ok sampleScraped) none
        (.reply none)).result = 200 :=
  ⟨fun _ _ _ _ _ _ => rfl, rfl, rfl⟩

/-- C2: evaluation of the code at the failing input (the scraping
collaborator raises).  `extract_recipe_full` does return the failure
branch with the collaborator's message, but `handler.do_GET` never calls
it: on a scrape fault it reaches the uncaught-crash path after emitting
a 200 status line, so no HTTP 500 with a `success:false` JSON body is
ever produced. -/
theorem c2_scrape_fault_behavior :
    do_GET ⟨some sampleUrl, some "secret".toList⟩ (.error c2msg) none (.reply none)
      = ⟨.uncaughtCrash, true⟩
    ∧ statusSent DoGetResult.uncaughtCrash = 200
    ∧ extract_recipe_full sampleUrl (.error c2msg) none (.reply none) = .err c2msg :=
  ⟨rfl, rfl, rfl⟩

/-- C3 counterexample: at a concrete successfully handled request the
200 body's top-level keys are `recipe` and `step_ingredients` and the
body has no top-level `title` field, contradicting the claimed flat
NormalizedRecipe shape. -/
theorem c3_cex_wrapped_body :
    (getBody (do_GET ⟨some sampleUrl, none⟩ (.ok sampleScraped) none
        (.reply none)).result).map topKeys
      = some ["recipe".toList, "step_ingredients".toList]
    ∧ ((getBody (do_GET ⟨some sampleUrl, none⟩ (.ok sampleScraped) none
        (.reply none)).result).bind (fun b => jlookup b "title".toList)) = none :=
  ⟨rfl, rfl⟩

/-- C3 amended: every successfully handled request gets status 200 and a
JSON body that is an object with exactly the top-level fields `recipe`
(the scraped field map) and `step_ingredients` (the enrichment map,
serialized keyed by decimal-string step index by `stepMapToJson`). -/
theorem c3_amended_response_shape :
    ∀ (u : PyStr) (hk : Option PyStr) (sd : DoGetScraped) (g : Option PyStr)
      (o : GeminiOutcome), u ≠ [] →
      (do_GET ⟨some u, hk⟩ (.ok sd) g o).result
        = .ok (.obj [("recipe".toList, scrapedToJson sd),
            ("step_ingredients".toList,
              stepMapToJson (call_gemini_for_step_ingredients g o))])
      ∧ statusSent (do_GET ⟨some u, hk⟩ (.ok sd) g o).result = 200 := by
  intro u hk sd g o hu
  have hne : u.isEmpty = false := by
    cases u with
    | nil => exact absurd rfl hu
    | cons c t => rfl
  constructor
  · simp [do_GET, hne]
  · simp [do_GET, hne, statusSent]

/-- Witness for C3's amended theorem at a concrete request. -/
theorem c3_shape_witness :
    (do_GET ⟨some sampleUrl, some "k".toList⟩ (.ok sampleScraped) none
        (.fault "f".toList)).result
      = .ok (.obj [("recipe".toList, scrapedToJson sampleScraped),
          ("step_ingredients".toList,
            stepMapToJson (call_gemini_for_step_ingredients none (.fault "f".toList)))])
    ∧ statusSent (do_GET ⟨some sampleUrl, some "k".toList⟩ (.ok sampleScraped) none
        (.fault "f".toList)).result = 200 :=
  c3_amended_response_shape sampleUrl (some "k".toList) sampleScraped none
    (.fault "f".toList) (by decide)

/-- C4: the enrichment function is total and every failure path yields
the empty mapping — falsy credential, a faulting completion call, a
`None` reply text, or an unparseable reply — and with enrichment
disabled the request still succeeds with `step_ingredients` present and
empty, both through `extract_recipe_full` and through `do_GET`. -/
theorem c4_enrichment_never_fails :
    (∀ (g : Option PyStr) (o : GeminiOutcome), pyFalsy g = true →
      call_gemini_for_step_ingredients g o = [])
    ∧ (∀ (g : Option PyStr) (m : PyStr), call_gemini_for_step_ingredients g (.fault m) = [])
    ∧ (∀ (g : Option PyStr), call_gemini_for_step_ingredients g (.reply none) = [])
    ∧ (∀ (g : Option PyStr) (t : PyStr), parseJson (stripFences t) = none →
      call_gemini_for_step_ingredients g (.reply (some t)) = [])
    ∧ (∀ (u : PyStr) (s : ScrapeResult) (g : Option PyStr) (o : GeminiOutcome),
      pyFalsy g = true →
      (getData (extract_recipe_full u (.ok s) g o)).map RecipeData.step_ingredients
        = some [])
    ∧ (∀ (u : PyStr) (hk : Option PyStr) (sd : DoGetScraped) (g : Option PyStr)
        (o : GeminiOutcome), u ≠ [] → pyFalsy g = true →
      (do_GET ⟨some u, hk⟩ (.ok sd) g o).result
        = .ok (.obj [("recipe".toList, scrapedToJson sd),
            ("step_ingredients".toList, .obj [])])) := by
  refine ⟨?_, ?_, ?_, ?_, ?_, ?_⟩
  · intro g o h; simp [call_gemini_for_step_ingredients, h]
  · intro g m; cases hg : pyFalsy g <;> simp [call_gemini_for_step_ingredients, hg]
  · intro g; cases hg : pyFalsy g <;> simp [call_gemini_for_step_ingredients, hg]
  · intro g t h
    cases hg : pyFalsy g <;>
      simp [call_gemini_for_step_ingredients, hg, geminiParse, h]
  · intro u s g o h
    simp [extract_recipe_full, getData, call_gemini_for_step_ingredients, h]
  · intro u hk sd g o hu h
    have hne : u.isEmpty = false := by
      cases u with
      | nil => exact absurd rfl hu
      | cons c t => rfl
    simp [do_GET, hne, call_gemini_for_step_ingredients, h, stepMapToJson]

/-- Witness for C4 at concrete inputs: unset credential, a fault, a
`None` reply, an unparseable reply, and a full request with enrichment
disabled. -/
theorem c4_enrichment_witness :
    call_gemini_for_step_ingredients none (.reply (some "x".toList)) = []
    ∧ call_gemini_for_step_ingredients (some "g".toList) (.fault "boom".toList) = []
    ∧ call_gemini_for_step_ingredients (some "g".toList) (.reply none) = []
    ∧ call_gemini_for_step_ingredients (some "g".toList) (.reply (some "not json".toList))
        = []
    ∧ (getData (extract_recipe_full sampleUrl (.ok sampleScrape2) none
        (.reply none))).map RecipeData.step_ingredients = some []
    ∧ (do_GET ⟨some sampleUrl, none⟩ (.ok sampleScraped) (some [] : Option PyStr)
        (.reply (some "\x7b\"0\":[]\x7d".toList))).result
        = .ok (.obj [("recipe".toList, scrapedToJson sampleScraped),
            ("step_ingredients".toList, .obj [])]) :=
  ⟨c4_enrichment_never_fails.1 none (.reply (some "x".toList)) rfl,
   c4_enrichment_never_fails.2.1 (some "g".toList) "boom".toList,
   c4_enrichment_never_fails.2.2.1 (some "g".toList),
   c4_enrichment_never_fails.2.2.2.1 (some "g".toList) "not json".toList rfl,
   c4_enrichment_never_fails.2.2.2.2.1 sampleUrl sampleScrape2 none (.reply none) rfl,
   c4_enrichment_never_fails.2.2.2.2.2 sampleUrl none sampleScraped (some [])
     (.reply (some "\x7b\"0\":[]\x7d".toList)) (by decide) rfl⟩

/-- C5 counterexample: an untagged leading fence is not stripped, so the
bare-fenced variant of the spec's example parses to the empty mapping
while the unfenced text parses to the claimed mapping — the two do not
parse identically, refuting "a leading fence optionally tagged json". -/
theorem c5_cex_untagged_fence :
    call_gemini_for_step_ingredients (some "g".toList) (.reply (some c5fencedUntagged)) = []
    ∧ call_gemini_for_step_ingredients (some "g".toList) (.reply (some c5plain))
        = [(0, Json.arr [])]
    ∧ ([] : List (Int × Json)) ≠ [(0, Json.arr [])] :=
  ⟨rfl, rfl, Ne.symm (List.cons_ne_nil _ _)⟩

/-- C5 amended: the leading fence is stripped only when it is exactly
the three backticks followed by `json`; a trailing three-backtick fence
is stripped; for text fenced that way the enricher behaves identically
to the unfenced text (so the spec's tagged example still parses
identically to its unfenced form). -/
theorem c5_amended_tagged_fence_only :
    ∀ (key : Option PyStr) (a b : Char) (mid : PyStr),
      pyIsSpace a = false → pyIsSpace b = false →
      (stripFences (fenceJson ++ '\n' :: (a :: mid ++ [b]) ++ '\n' :: fenceTicks)
        = a :: mid ++ [b])
      ∧ ((a :: mid ++ [b]).take 7 ≠ fenceJson →
         (a :: mid ++ [b]).drop ((a :: mid ++ [b]).length - 3) ≠ fenceTicks →
         stripFences (a :: mid ++ [b]) = a :: mid ++ [b]
         ∧ call_gemini_for_step_ingredients key
             (.reply (some (fenceJson ++ '\n' :: (a :: mid ++ [b]) ++ '\n' :: fenceTicks)))
           = call_gemini_for_step_ingredients key (.reply (some (a :: mid ++ [b])))) := by
  intro key a b mid ha hb
  refine ⟨stripFences_fenced a b mid ha hb, fun h3 h4 => ⟨stripFences_plain a b mid ha hb h3 h4, ?_⟩⟩
  have he : stripFences (fenceJson ++ '\n' :: (a :: mid ++ [b]) ++ '\n' :: fenceTicks)
      = stripFences (a :: mid ++ [b]) := by
    rw [stripFences_fenced a b mid ha hb, stripFences_plain a b mid ha hb h3 h4]
  have hg : geminiParse (fenceJson ++ '\n' :: (a :: mid ++ [b]) ++ '\n' :: fenceTicks)
      = geminiParse (a :: mid ++ [b]) := by
    unfold geminiParse; rw [he]
  show (if pyFalsy key = true then ([] : List (Int × Json))
        else geminiParse (fenceJson ++ '\n' :: (a :: mid ++ [b]) ++ '\n' :: fenceTicks))
      = (if pyFalsy key = true then ([] : List (Int × Json))
        else geminiParse (a :: mid ++ [b]))
  rw [hg]

/-- Witness for C5's amended theorem at the spec's example text. -/
theorem c5_fence_witness :
    stripFences (fenceJson ++ '\n' :: (lbraceC :: "\"0\":[]".toList ++ [rbraceC])
        ++ '\n' :: fenceTicks)
      = lbraceC :: "\"0\":[]".toList ++ [rbraceC]
    ∧ stripFences (lbraceC :: "\"0\":[]".toList ++ [rbraceC])
      = lbraceC :: "\"0\":[]".toList ++ [rbraceC]
    ∧ call_gemini_for_step_ingredients (some "g".toList)
        (.reply (some (fenceJson ++ '\n' :: (lbraceC :: "\"0\":[]".toList ++ [rbraceC])
          ++ '\n' :: fenceTicks)))
      = call_gemini_for_step_ingredients (some "g".toList)
        (.reply (some (lbraceC :: "\"0\":[]".toList ++ [rbraceC]))) := by
  obtain ⟨h1, h2⟩ := c5_amended_tagged_fence_only (some "g".toList) lbraceC rbraceC
    ("\"0\":[]".toList) (by decide) (by decide)
  obtain ⟨h3, h4⟩ := h2 (by decide) (by decide)
  exact ⟨h1, h3, h4⟩

/-- C6 counterexample: in the reply with keys `"0"` and `"x"`, the
non-integer key does not fail only its own entry — the whole mapping is
discarded and the enricher returns the empty mapping, so the entry for
step 0 is not returned either. -/
theorem c6_cex_bad_key_discards_all :
    call_gemini_for_step_ingredients (some "g".toList) (.reply (some c6badReply)) = []
    ∧ ([] : List (Int × Json)) ≠ [((0 : Int), Json.arr [Json.str ['a']])] :=
  ⟨rfl, Ne.symm (List.cons_ne_nil _ _)⟩

/-- C6 amended: for a well-formed JSON object reply the enricher coerces
the string keys to integers via `coerceKeys`/`pyInt`; when every key
coerces the coerced mapping is returned, and a single non-integer-like
key makes the whole call return the empty mapping (all other entries are
dropped too). -/
theorem c6_amended_key_coercion :
    (∀ (key : Option PyStr) (t : PyStr) (kvs : List (PyStr × Json))
        (m : List (Int × Json)),
      pyFalsy key = false → parseJson (stripFences t) = some (Json.obj kvs) →
      coerceKeys kvs [] = some m →
      call_gemini_for_step_ingredients key (.reply (some t)) = m)
    ∧ (∀ (key : Option PyStr) (t : PyStr) (kvs : List (PyStr × Json)),
      pyFalsy key = false → parseJson (stripFences t) = some (Json.obj kvs) →
      coerceKeys kvs [] = none →
      call_gemini_for_step_ingredients key (.reply (some t)) = [])
    ∧ (∀ (kvs : List (PyStr × Json)) (acc : List (Int × Json)) (k : PyStr) (v : Json),
      (k, v) ∈ kvs → pyInt k = none → coerceKeys kvs acc = none)
    ∧ call_gemini_for_step_ingredients (some "g".toList)
        (.reply (some "\x7b\"0\": [], \"2\": []\x7d".toList))
      = [((0 : Int), Json.arr []), ((2 : Int), Json.arr [])] := by
  refine ⟨?_, ?_, coerceKeys_badkey, rfl⟩
  · intro key t kvs m hk hp hc
    simp [call_gemini_for_step_ingredients, hk, geminiParse, hp, hc]
  · intro key t kvs hk hp hc
    simp [call_gemini_for_step_ingredients, hk, geminiParse, hp, hc]

/-- Witness for C6's amended theorem at concrete replies. -/
theorem c6_coercion_witness :
    call_gemini_for_step_ingredients (some "g".toList)
        (.reply (some "\x7b\"0\": [], \"2\": []\x7d".toList))
      = [((0 : Int), Json.arr []), ((2 : Int), Json.arr [])]
    ∧ coerceKeys [("x".toList, Json.null)] [] = none :=
  ⟨c6_amended_key_coercion.1 (some "g".toList) ("\x7b\"0\": [], \"2\": []\x7d".toList)
      [("0".toList, Json.arr []), ("2".toList, Json.arr [])]
      [((0 : Int), Json.arr []), ((2 : Int), Json.arr [])] rfl rfl rfl,
   c6_amended_key_coercion.2.2.1 [("x".toList, Json.null)] [] "x".toList Json.null
      (List.Mem.head _) rfl⟩

/-- C7 counterexample: the line `" salt"` has a single
whitespace-delimited token, so the claim requires the whole line as the
item with a null quantity; the code splits at the first space character
and produces an empty-string quantity with item `"salt"`. -/
theorem c7_cex_leading_space :
    parseIngredient (' ' :: "salt".toList) = ⟨some [], "salt".toList⟩
    ∧ (⟨some [], "salt".toList⟩ : Ingredient) ≠ ⟨none, ' ' :: "salt".toList⟩ :=
  ⟨rfl, by decide⟩

/-- C7 amended: normalization splits at the first space character (not
general whitespace): when the line contains a space the quantity is the
prefix before the first space (possibly empty) and the item is the
remainder; otherwise the whole line is the item with a null quantity.
The spec's two examples hold. -/
theorem c7_amended_single_space :
    (∀ s : PyStr, ' ' ∈ s →
      parseIngredient s
        = ⟨some (s.takeWhile (fun c => c != ' ')), (s.dropWhile (fun c => c != ' ')).tail⟩)
    ∧ (∀ s : PyStr, ' ' ∉ s → parseIngredient s = ⟨none, s⟩)
    ∧ parseIngredient "2 cups flour".toList = ⟨some "2".toList, "cups flour".toList⟩
    ∧ parseIngredient "salt".toList = ⟨none, "salt".toList⟩ := by
  refine ⟨fun s h => ?_, fun s h => ?_, rfl, rfl⟩
  · simp [parseIngredient, (splitFirstSpace_spec s).1 h]
  · simp [parseIngredient, (splitFirstSpace_spec s).2 h]

/-- Witness for C7's amended theorem at a concrete line. -/
theorem c7_split_witness :
    parseIngredient "a b".toList
      = ⟨some ("a b".toList.takeWhile (fun c => c != ' ')),
         ("a b".toList.dropWhile (fun c => c != ' ')).tail⟩ :=
  c7_amended_single_space.1 "a b".toList (by decide)

/-- C8 counterexample: with a single instruction the only valid 0-based
index is 0, but the model reply keyed `"5"` is merged unchecked, so the
produced `step_ingredients` has key 5, which is not a valid instruction
index. -/
theorem c8_cex_out_of_range_key :
    (getData (extract_recipe_full sampleUrl (.ok c8scrape) (some "g".toList)
        (.reply (some "\x7b\"5\": [\"x\"]\x7d".toList)))).map
      (fun d => (d.step_ingredients.map Prod.fst, d.steps.length)) = some ([5], 1)
    ∧ ¬ ((5 : Int) < 1) :=
  ⟨rfl, by decide⟩

/-- C8 amended: `step_ingredients` is exactly the enrichment result —
no check restricts its keys to valid instruction indices — and when the
enrichment stage is disabled (falsy credential) the map is empty; the
field itself is always present on the success branch. -/
theorem c8_amended_unchecked_keys :
    (∀ (u : PyStr) (s : ScrapeResult) (g : Option PyStr) (o : GeminiOutcome),
      (getData (extract_recipe_full u (.ok s) g o)).map RecipeData.step_ingredients
        = some (call_gemini_for_step_ingredients g o))
    ∧ (∀ (u : PyStr) (s : ScrapeResult) (g : Option PyStr) (o : GeminiOutcome),
      pyFalsy g = true →
      (getData (extract_recipe_full u (.ok s) g o)).map RecipeData.step_ingredients
        = some []) := by
  refine ⟨fun u s g o => rfl, fun u s g o h => ?_⟩
  simp [extract_recipe_full, getData, call_gemini_for_step_ingredients, h]

/-- Witness for C8's amended theorem with enrichment disabled. -/
theorem c8_keys_witness :
    (getData (extract_recipe_full sampleUrl (.ok c8scrape) none
        (.reply none))).map RecipeData.step_ingredients = some [] :=
  c8_amended_unchecked_keys.2 sampleUrl c8scrape none (.reply none) rfl

/-- C9: with a single positional argument the CLI runs extraction once,
prints the JSON result, and exits 0 exactly on the success branch and 1
on the failure branch; with no argument nothing is printed and the exit
code is 1. -/
theorem c9_cli_single_argument :
    (∀ (p u : PyStr) (s : Except PyStr ScrapeResult) (g : Option PyStr)
        (o : GeminiOutcome),
      mainCLI [p, u] s g o
        = (some (apiRespToJson (extract_recipe_full u s g o)),
           if isOk (extract_recipe_full u s g o) then 0 else 1))
    ∧ (∀ (p u : PyStr) (sr : ScrapeResult) (g : Option PyStr) (o : GeminiOutcome),
      (mainCLI [p, u] (.ok sr) g o).2 = 0)
    ∧ (∀ (p u m : PyStr) (g : Option PyStr) (o : GeminiOutcome),
      (mainCLI [p, u] (.error m) g o).2 = 1)
    ∧ (∀ (p : PyStr) (s : Except PyStr ScrapeResult) (g : Option PyStr)
        (o : GeminiOutcome), mainCLI [p] s g o = (none, 1)) :=
  ⟨fun _ _ _ _ _ => rfl, fun _ _ _ _ _ => rfl, fun _ _ _ _ _ => rfl, fun _ _ _ _ => rfl⟩

/-- C10: ingredient normalization splits only on the single space
character and performs no trimming: a line starting with a space yields
an empty-string quantity and the remainder after that first space as the
item, and a line with no space character — even one containing other
whitespace — is kept whole with a null quantity. -/
theorem c10_space_only_split :
    (∀ rest : PyStr, parseIngredient (' ' :: rest) = ⟨some [], rest⟩)
    ∧ (∀ s : PyStr, ' ' ∉ s → parseIngredient s = ⟨none, s⟩)
    ∧ parseIngredient (' ' :: "salt".toList) = ⟨some [], "salt".toList⟩ := by
  refine ⟨fun rest => rfl, fun s h => ?_, rfl⟩
  simp [parseIngredient, (splitFirstSpace_spec s).2 h]

/-- Witness for C10 at a tab-separated line: the tab is not a split
point. -/
theorem c10_space_witness :
    parseIngredient ['a', '\t', 'b'] = ⟨none, ['a', '\t', 'b']⟩ :=
  c10_space_only_split.2.1 ['a', '\t', 'b'] (by decide)

end ChefMode
